import Mathlib

/-!
Verification of the OrbitNest Node SDK core (transport, auth session holder,
query builder, functions client) against its specification.

The TypeScript sources are embedded shallowly:

* `src/lib/client.ts` (`HttpClient.request`) becomes `requestResult`, a pure
  function of the `FetchOutcome` (what `fetch` / `response.json()` produced),
  plus `effectiveTimeout` for the deadline computed on line 23 of the source.
* `src/lib/auth.ts` (`AuthClient`) becomes a family of state-transformer
  functions over `AuthState := Option AuthSession` (the `session` field).
  Each operation takes the envelope the transport would return for the call it
  issues (the transport is the oracle) and returns the envelope handed back to
  the caller, the new session state, and the list of network calls issued,
  so that "makes no network call" is expressible as an empty call list.
* `src/lib/database.ts` (`TableQueryBuilder`, `DatabaseClient.getTableData`)
  becomes state transformers over `PaginationOptions` and the request-building
  function `getTableDataRequest`.
* `src/lib/functions.ts` (`FunctionsClient.invoke`) becomes `invoke`, composed
  with `requestResult`.

JavaScript `null`/`undefined` and truthiness are modelled explicitly: an
`Option Json` holds `none` where the JS value is `null` or `undefined`, and
`Json.truthy` mirrors JS boolean coercion (`""`, `0`, `false`, `null` falsy).
-/

namespace OrbitNest

/-- JSON values as produced by `response.json()`.  `none : Option Json` is used
where the JS runtime value is `null` or `undefined` (in particular the result
of `response.json().catch(() => null)` on a parse failure, and absent object
fields), so `Json.jnull` only appears nested inside objects and arrays. -/
inductive Json where
  | jnull
  | jbool (b : Bool)
  | jnum (n : Int)
  | jstr (s : String)
  | jarr (elems : List Json)
  | jobj (fields : List (String × Json))

/-- JS truthiness of a JSON value (`Boolean(v)`): `null`, `false`, `0` and the
empty string are falsy; arrays and objects are always truthy. -/
def Json.truthy : Json → Bool
  | .jnull => false
  | .jbool b => b
  | .jnum n => n != 0
  | .jstr s => s != ""
  | .jarr _ => true
  | .jobj _ => true

/-- Truthiness of a possibly-`null`/`undefined` JS value. -/
def jsTruthy : Option Json → Bool
  | none => false
  | some j => j.truthy

/-- Optional-chained property access `v?.field`: `undefined` when the value is
`null`/`undefined` or not an object, or when the field is absent. -/
def jsGet : Option Json → String → Option Json
  | some (.jobj fields), key => fields.lookup key
  | _, _ => none

/-- JS `a || b` where the left operand is a possibly-absent JSON value and the
result must be a value (the right operand is the final fallback). -/
def jsOr (a : Option Json) (b : Json) : Json :=
  match a with
  | some j => if j.truthy then j else b
  | none => b

/-- JS `a || b` where both operands may be `undefined`. -/
def jsOrOpt (a : Option Json) (b : Option Json) : Option Json :=
  match a with
  | some j => if j.truthy then some j else b
  | none => b

mutual

/-- JS `v.toString()` for the value kinds representable here (`Array.prototype.toString`
joins the recursively stringified elements with commas, rendering nested `null`
elements as empty strings; plain objects render as `"[object Object]"`). -/
def Json.jsToString : Json → String
  | .jnull => "null"
  | .jbool b => cond b "true" "false"
  | .jnum n => toString n
  | .jstr s => s
  | .jarr elems => jsArrToString elems
  | .jobj _ => "[object Object]"

/-- An array element under `Array.prototype.toString`: `null` renders empty. -/
def jsElemToString : Json → String
  | .jnull => ""
  | j => Json.jsToString j

/-- Comma-join of stringified array elements. -/
def jsArrToString : List Json → String
  | [] => ""
  | [x] => jsElemToString x
  | x :: xs => jsElemToString x ++ "," ++ jsArrToString xs

end

/-- The `error` member of the envelope (`{ message, code?, status? }` from
`src/types`).  At runtime `message` and `code` carry whatever JSON value the
fallback chains on client.ts lines 45-46 produce, so they are modelled as JSON
values rather than strings. -/
structure ErrorInfo where
  message : Json
  code : Option Json := none
  status : Option Nat := none

/-- The result envelope `ApiResult<T>` of `src/types`, as it exists at runtime:
each of `data` and `error` is either a value or `null` (`none`). -/
structure ApiResult (α : Type) where
  data : Option α
  error : Option ErrorInfo

/-- Client configuration (`OrbitNestConfig`); `baseUrl` and `timeout` optional. -/
structure OrbitNestConfig where
  projectSlug : String
  apiKey : String
  baseUrl : Option String := none
  timeout : Option Nat := none

/-- Per-call options of `HttpClient.request` (`RequestOptions` in `src/types`). -/
structure RequestOptions where
  method : Option String := none
  body : Option Json := none
  headers : List (String × String) := []
  timeout : Option Nat := none

/-- The constructor line `this.timeout = config.timeout || 30000` of client.ts:
a missing — or zero, since `0` is falsy — configured timeout becomes 30000. -/
def clientTimeout (cfg : OrbitNestConfig) : Nat :=
  match cfg.timeout with
  | some t => if t != 0 then t else 30000
  | none => 30000

/-- The deadline started on client.ts line 23:
`setTimeout(() => controller.abort(), options.timeout || this.timeout)`.
Again `||`, so a zero per-call timeout falls back to the configured one. -/
def effectiveTimeout (cfg : OrbitNestConfig) (opts : RequestOptions) : Nat :=
  match opts.timeout with
  | some t => if t != 0 then t else clientTimeout cfg
  | none => clientTimeout cfg

/-- What the `fetch` call inside `HttpClient.request` did:
* `response status body` — a response arrived; `body` is the outcome of
  `await response.json().catch(() => null)` (`none` = the parse yielded `null`);
  `response.ok` is derived from `status`;
* `abort` — the deadline timer fired and the request rejected with `AbortError`;
* `failed isError msg` — any other rejection (`isError` = `err instanceof Error`,
  `msg` = its message). -/
inductive FetchOutcome where
  | response (status : Nat) (body : Option Json)
  | abort
  | failed (isError : Bool) (msg : String)

/-- `response.ok`: the status is in the 2xx success range. -/
def okStatus (status : Nat) : Bool :=
  decide (200 ≤ status) && decide (status < 300)

/-- The error object built on client.ts lines 42-49 for a non-2xx response:
`message: data?.message || data?.error || `Request failed with status ${...}``,
`code: data?.code || data?.statusCode?.toString()`, `status: response.status`. -/
def errorFromBody (status : Nat) (body : Option Json) : ErrorInfo :=
  { message := jsOr (jsGet body "message")
      (jsOr (jsGet body "error") (.jstr ("Request failed with status " ++ toString status)))
    code := jsOrOpt (jsGet body "code")
      ((jsGet body "statusCode").bind fun j =>
        match j with
        | .jnull => none
        | j => some (.jstr j.jsToString))
    status := some status }

/-- The envelope `HttpClient.request` resolves with (client.ts lines 25-70), as a
function of the fetch outcome.  Note the success branch (line 52) is
`{ data: data as T, error: null }` where `data` may be `null`. -/
def requestResult : FetchOutcome → ApiResult Json
  | .response status body =>
    if okStatus status then { data := body, error := none }
    else { data := none, error := some (errorFromBody status body) }
  | .abort =>
    { data := none
      error := some { message := .jstr "Request timeout", code := some (.jstr "TIMEOUT") } }
  | .failed isError msg =>
    { data := none
      error := some { message := .jstr (if isError then msg else "Unknown error")
                      code := some (.jstr "NETWORK_ERROR") } }

/-- The either/or invariant claimed of every envelope: exactly one of `data` and
`error` is non-null. -/
def eitherOr (r : ApiResult α) : Bool :=
  (r.data.isSome && r.error.isNone) || (r.data.isNone && r.error.isSome)

/-- The deadline exactly as the claim words it: the per-call override whenever
one is supplied, else the configured timeout whenever supplied, else 30000.
Written from the specification for comparison with `effectiveTimeout`. -/
def claimedDeadline (cfg : OrbitNestConfig) (opts : RequestOptions) : Nat :=
  match opts.timeout with
  | some t => t
  | none =>
    match cfg.timeout with
    | some c => c
    | none => 30000

/-- The configured-timeout fallback as the amended claim words it: the
configured timeout when supplied and positive, else 30000.  Written, together
with `amendedDeadline`, from the amended specification for comparison with
`effectiveTimeout`: the deadline is the per-call override when supplied and
positive, else this fallback. -/
def amendedConfigured (cfg : OrbitNestConfig) : Nat :=
  match cfg.timeout with
  | some c => if 0 < c then c else 30000
  | none => 30000

/-- Companion to `amendedConfigured`: the full amended deadline. -/
def amendedDeadline (cfg : OrbitNestConfig) (opts : RequestOptions) : Nat :=
  match opts.timeout with
  | some t => if 0 < t then t else amendedConfigured cfg
  | none => amendedConfigured cfg

/-- The non-2xx error object exactly as the claim words it, reading "else" as
field absence: `message` is the body's `message` field, else its `error` field,
else the generic text; `code` is the body's `code` field, else its stringified
`statusCode`, if present.  Written from the specification for comparison with
`errorFromBody`. -/
def claimedErrorFromBody (status : Nat) (body : Option Json) : ErrorInfo :=
  { message :=
      match jsGet body "message" with
      | some m => m
      | none =>
        match jsGet body "error" with
        | some e => e
        | none => .jstr ("Request failed with status " ++ toString status)
    code :=
      match jsGet body "code" with
      | some c => some c
      | none =>
        match jsGet body "statusCode" with
        | some sc => some (.jstr sc.jsToString)
        | none => none
    status := some status }

/-- The non-2xx error object as the amended claim words it, reading "else" as
JS falsiness: `message` is the body's `message` field when truthy, else its
`error` field when truthy, else the generic text; `code` is the body's `code`
field when truthy, else its `statusCode` stringified through optional chaining.
Written from the amended specification for comparison with `errorFromBody`. -/
def amendedErrorFromBody (status : Nat) (body : Option Json) : ErrorInfo :=
  { message :=
      if jsTruthy (jsGet body "message") then (jsGet body "message").getD .jnull
      else if jsTruthy (jsGet body "error") then (jsGet body "error").getD .jnull
      else .jstr ("Request failed with status " ++ toString status)
    code :=
      if jsTruthy (jsGet body "code") then jsGet body "code"
      else
        match jsGet body "statusCode" with
        | some .jnull => none
        | some sc => some (.jstr sc.jsToString)
        | none => none
    status := some status }

/-- A user record (`AuthUser` in `src/types`). -/
structure AuthUser where
  id : String
  email : String
  email_confirmed_at : Option String := none
  created_at : String := ""
  updated_at : String := ""
  user_metadata : Option Json := none

/-- A session (`AuthSession` in `src/types`): the payload stored by the Session
Holder. -/
structure AuthSession where
  access_token : String
  refresh_token : String
  expires_in : Int
  token_type : String
  user : AuthUser

/-- The Session Holder: `AuthClient`'s private `session` field (auth.ts line 14),
`none` while anonymous. -/
abbrev AuthState := Option AuthSession

/-- One network call handed to `HttpClient.request`: the path and the
`RequestOptions` fields the auth/database/functions clients set. -/
structure CallRecord where
  path : String
  method : String := "GET"
  body : Option Json := none
  headers : List (String × String) := []

/-- The `{ success: boolean }` payloads of sign-out and deletion. -/
structure SuccessFlag where
  success : Bool

/-- `AuthClient`'s `basePath` getter (auth.ts line 19). -/
def authBasePath (slug : String) : String :=
  "/api/projects/" ++ slug ++ "/auth"

/-- `AuthClient.signUp` (auth.ts lines 40-52): issues the OTP-request call and
returns the transport's envelope untouched; the comment on line 50 records that
no session is returned in this step, and indeed the session field is never
assigned.  Because the method never inspects the payload, the response is
modelled at the runtime type `Json` (the `request<T>` type argument is only a
cast). -/
def signUp (slug email password : String) (metadata : Option Json)
    (st : AuthState) (resp : ApiResult Json) :
    ApiResult Json × AuthState × List CallRecord :=
  (resp, st,
    [{ path := authBasePath slug ++ "/signup"
       method := "POST"
       body := some (.jobj ([("email", .jstr email), ("password", .jstr password)] ++
         match metadata with
         | some m => [("user_metadata", m)]
         | none => [])) }])

/-- `AuthClient.verifySignUp` (auth.ts lines 58-72): issues the verification
call; `if (result.data) this.session = result.data` stores the payload. -/
def verifySignUp (slug email code : String)
    (st : AuthState) (resp : ApiResult AuthSession) :
    ApiResult AuthSession × AuthState × List CallRecord :=
  (resp,
   (match resp.data with
    | some s => some s
    | none => st),
   [{ path := authBasePath slug ++ "/verify-signup"
      method := "POST"
      body := some (.jobj [("email", .jstr email), ("code", .jstr code)]) }])

/-- `AuthClient.signIn` (auth.ts lines 77-91): issues the sign-in call;
`if (result.data) this.session = result.data` stores the payload. -/
def signIn (slug email password : String)
    (st : AuthState) (resp : ApiResult AuthSession) :
    ApiResult AuthSession × AuthState × List CallRecord :=
  (resp,
   (match resp.data with
    | some s => some s
    | none => st),
   [{ path := authBasePath slug ++ "/signin"
      method := "POST"
      body := some (.jobj [("email", .jstr email), ("password", .jstr password)]) }])

/-- `AuthClient.signOut` (auth.ts lines 96-110): with no session it resolves
locally with `{ success: true }`; otherwise it issues the sign-out call bearing
the current access token and sets `this.session = null` unconditionally before
returning the transport's envelope. -/
def signOut (slug : String) (st : AuthState) (resp : ApiResult SuccessFlag) :
    ApiResult SuccessFlag × AuthState × List CallRecord :=
  match st with
  | none => ({ data := some { success := true }, error := none }, none, [])
  | some s =>
    (resp, none,
      [{ path := authBasePath slug ++ "/signout"
         method := "POST"
         headers := [("Authorization", "Bearer " ++ s.access_token)] }])

/-- The guard `!this.session?.refresh_token` of auth.ts line 116: true when no
session is held or the held refresh token is the empty string. -/
def lacksRefreshToken : AuthState → Bool
  | none => true
  | some s => s.refresh_token == ""

/-- The guard `!this.session?.access_token` of auth.ts lines 162/180/200. -/
def lacksAccessToken : AuthState → Bool
  | none => true
  | some s => s.access_token == ""

/-- `AuthClient.refreshSession` (auth.ts lines 115-133): fails locally with
`NO_SESSION` when no refresh token is held; otherwise issues the refresh call
and stores a returned session. -/
def refreshSession (slug : String) (st : AuthState) (resp : ApiResult AuthSession) :
    ApiResult AuthSession × AuthState × List CallRecord :=
  if lacksRefreshToken st then
    ({ data := none
       error := some { message := .jstr "No refresh token available"
                       code := some (.jstr "NO_SESSION") } }, st, [])
  else
    match st with
    | some s =>
      (resp,
       (match resp.data with
        | some s' => some s'
        | none => some s),
       [{ path := authBasePath slug ++ "/refresh"
          method := "POST"
          body := some (.jobj [("refresh_token", .jstr s.refresh_token)]) }])
    | none => ({ data := none, error := none }, none, [])

/-- The local-precondition error of auth.ts lines 163-166/181-184/201-204. -/
def noActiveSessionError : ErrorInfo :=
  { message := .jstr "No active session", code := some (.jstr "NO_SESSION") }

/-- `AuthClient.getProfile` (auth.ts lines 161-174): requires a held access
token, then issues a GET bearing it; the session is not mutated. -/
def getProfile (slug : String) (st : AuthState) (resp : ApiResult AuthUser) :
    ApiResult AuthUser × AuthState × List CallRecord :=
  if lacksAccessToken st then
    ({ data := none, error := some noActiveSessionError }, st, [])
  else
    match st with
    | some s =>
      (resp, some s,
        [{ path := authBasePath slug ++ "/user"
           headers := [("Authorization", "Bearer " ++ s.access_token)] }])
    | none => ({ data := none, error := none }, none, [])

/-- `AuthClient.updateUser` (auth.ts lines 179-194): requires a held access
token, then issues a PUT with the options as body; the session is not mutated. -/
def updateUser (slug : String) (options : Json) (st : AuthState) (resp : ApiResult AuthUser) :
    ApiResult AuthUser × AuthState × List CallRecord :=
  if lacksAccessToken st then
    ({ data := none, error := some noActiveSessionError }, st, [])
  else
    match st with
    | some s =>
      (resp, some s,
        [{ path := authBasePath slug ++ "/user"
           method := "PUT"
           body := some options
           headers := [("Authorization", "Bearer " ++ s.access_token)] }])
    | none => ({ data := none, error := none }, none, [])

/-- `AuthClient.deleteUser` (auth.ts lines 199-219): requires a held access
token; on a successful deletion (`if (result.data)`) the session is cleared. -/
def deleteUser (slug : String) (st : AuthState) (resp : ApiResult SuccessFlag) :
    ApiResult SuccessFlag × AuthState × List CallRecord :=
  if lacksAccessToken st then
    ({ data := none, error := some noActiveSessionError }, st, [])
  else
    match st with
    | some s =>
      (resp,
       (match resp.data with
        | some _ => none
        | none => some s),
       [{ path := authBasePath slug ++ "/user"
          method := "DELETE"
          headers := [("Authorization", "Bearer " ++ s.access_token)] }])
    | none => ({ data := none, error := none }, none, [])

/-- A held session that lacks only the refresh token: the access token is
present, so only the refresh-token guard fires. -/
def sessionWithoutRefresh : AuthSession :=
  { access_token := "tok", refresh_token := "", expires_in := 900, token_type := "bearer"
    user := { id := "u1", email := "a@b.com" } }

/-- A held session that lacks only the access token: the refresh token is
present, so only the access-token guard fires. -/
def sessionWithoutAccess : AuthSession :=
  { access_token := "", refresh_token := "r1", expires_in := 900, token_type := "bearer"
    user := { id := "u1", email := "a@b.com" } }

/-- `AuthClient.getSession` (auth.ts lines 25-27). -/
def getSession (st : AuthState) : Option AuthSession := st

/-- `AuthClient.getUser` (auth.ts lines 32-34): `this.session?.user || null`;
a user object is always truthy, so this is just the optional projection. -/
def getUser : AuthState → Option AuthUser
  | some s => some s.user
  | none => none

/-- `AuthClient.setSession` (auth.ts lines 224-226): unconditional overwrite. -/
def setSession (s : AuthSession) (_prior : AuthState) : AuthState := some s

/-- The runtime content of the TS `request<T>` cast: the envelope's payload is
reinterpreted at another type without being touched. -/
def castResult (f : α → β) (r : ApiResult α) : ApiResult β :=
  { data := r.data.map f, error := r.error }

/-- `DatabaseClient`'s `basePath` getter (database.ts line 18) — note the
singular `project` segment. -/
def dbBasePath (slug : String) : String :=
  "/api/project/" ++ slug ++ "/database"

/-- The query-builder state (`PaginationOptions` in `src/types`), the
`_pagination` field of `TableQueryBuilder` (database.ts line 230). -/
structure PaginationOptions where
  page : Option Nat := none
  limit : Option Nat := none
  sortBy : Option String := none
  sortOrder : Option String := none

namespace TableQueryBuilder

/-- `TableQueryBuilder.page` (database.ts lines 237-240): overwrites the `page`
field and returns the same (here: updated) builder. -/
def page (num : Nat) (p : PaginationOptions) : PaginationOptions :=
  { p with page := some num }

/-- `TableQueryBuilder.limit` (database.ts lines 242-245). -/
def limit (num : Nat) (p : PaginationOptions) : PaginationOptions :=
  { p with limit := some num }

/-- `TableQueryBuilder.orderBy` (database.ts lines 247-251); the source defaults
`order` to `"ASC"`, modelled by passing it explicitly. -/
def orderBy (column : String) (order : String) (p : PaginationOptions) : PaginationOptions :=
  { p with sortBy := some column, sortOrder := some order }

end TableQueryBuilder

/-- The `URLSearchParams` built in `DatabaseClient.getTableData` (database.ts
lines 71-75): each field is appended when truthy (so `page: 0`, `limit: 0`, or
empty strings are omitted just as `undefined` is). -/
def paginationParams (options : PaginationOptions) : List (String × String) :=
  (match options.page with
   | some p => if p != 0 then [("page", toString p)] else []
   | none => []) ++
  (match options.limit with
   | some l => if l != 0 then [("limit", toString l)] else []
   | none => []) ++
  (match options.sortBy with
   | some s => if s != "" then [("sortBy", s)] else []
   | none => []) ++
  (match options.sortOrder with
   | some o => if o != "" then [("sortOrder", o)] else []
   | none => [])

/-- `URLSearchParams.toString()` over the accumulated pairs (the values used
here need no percent-encoding). -/
def serializeParams : List (String × String) → String
  | [] => ""
  | [(k, v)] => k ++ "=" ++ v
  | (k, v) :: rest => k ++ "=" ++ v ++ "&" ++ serializeParams rest

/-- The `query` string of database.ts line 77: `?`-prefixed when non-empty. -/
def queryString (options : PaginationOptions) : String :=
  let s := serializeParams (paginationParams options)
  if s == "" then "" else "?" ++ s

/-- The single GET request `DatabaseClient.getTableData` issues (database.ts
lines 78-80). -/
def getTableDataRequest (slug tableName : String) (options : PaginationOptions) : CallRecord :=
  { path := dbBasePath slug ++ "/tables/" ++ tableName ++ "/data" ++ queryString options }

/-- `TableQueryBuilder.select` (database.ts lines 253-255): delegates once to
`getTableData` with the accumulated state, returning the transport's envelope
and the single call issued. -/
def select (slug tableName : String) (p : PaginationOptions) (resp : ApiResult Json) :
    ApiResult Json × List CallRecord :=
  (resp, [getTableDataRequest slug tableName p])

/-- Invocation options of `FunctionsClient.invoke` (`FunctionInvokeOptions`). -/
structure FunctionInvokeOptions where
  method : Option String := none
  body : Option Json := none
  headers : List (String × String) := []

/-- The `FunctionResponse<T>` shape built by `invoke`; `data` is the envelope's
payload, which at runtime may be `null`. -/
structure FunctionResponse where
  data : Option Json
  status : Nat
  headers : List (String × String)

/-- `FunctionsClient.invoke` (functions.ts lines 10-34), composed with the
transport: builds the call, and on `result.error` returns the transport's
envelope unchanged (the source's `return result as ...` — its `data` is `null`
whenever `error` is set, see `requestResult`); on success wraps the payload
with the synthesized `status: 200` and empty headers. -/
def invoke (slug functionName : String) (opts : FunctionInvokeOptions)
    (outcome : FetchOutcome) : ApiResult FunctionResponse × List CallRecord :=
  let call : CallRecord :=
    { path := "/api/projects/" ++ slug ++ "/functions/v1/" ++ functionName
      method :=
        (match opts.method with
         | some m => if m != "" then m else "POST"
         | none => "POST")
      body := opts.body
      headers := opts.headers }
  let result := requestResult outcome
  match result.error with
  | some e => ({ data := none, error := some e }, [call])
  | none =>
    ({ data := some { data := result.data, status := 200, headers := [] }
       error := none }, [call])

/-! Helper lemmas shared by the claim theorems. -/

/-- The JS fallback `a || b` with a value fallback, as a single conditional. -/
theorem jsOr_eq_ite (a : Option Json) (b : Json) :
    jsOr a b = if jsTruthy a then a.getD .jnull else b := by
  cases a with
  | none => simp [jsOr, jsTruthy]
  | some j => by_cases h : j.truthy <;> simp [jsOr, jsTruthy, h]

/-- The JS fallback `a || b` with an optional fallback, as a single conditional. -/
theorem jsOrOpt_eq_ite (a : Option Json) (b : Option Json) :
    jsOrOpt a b = if jsTruthy a then a else b := by
  cases a with
  | none => simp [jsOrOpt, jsTruthy]
  | some j => by_cases h : j.truthy <;> simp [jsOrOpt, jsTruthy, h]

/-- The error object built for a non-2xx response equals its amended-claim
description. -/
theorem errorFromBody_eq_amended (status : Nat) (body : Option Json) :
    errorFromBody status body = amendedErrorFromBody status body := by
  unfold errorFromBody amendedErrorFromBody
  simp only [ErrorInfo.mk.injEq]
  refine ⟨?_, ?_, trivial⟩
  · rw [jsOr_eq_ite, jsOr_eq_ite]
  · rw [jsOrOpt_eq_ite]
    by_cases hc : jsTruthy (jsGet body "code")
    · simp [hc]
    · simp only [hc, if_false]
      cases hsc : jsGet body "statusCode" with
      | none => rfl
      | some sc => cases sc <;> rfl

/-! The claim theorems, in claim order. -/

/-- C1 (counterexample): the either/or invariant fails as stated.  A response in
the success range whose body fails to parse as JSON (client.ts line 39 turns the
parse failure into `null`) is returned on line 52 as `{ data: null, error: null }`
— both members absent. -/
theorem request_eitherOr_counterexample :
    eitherOr (requestResult (.response 200 none)) = false := rfl

/-- C1 (amended): for every outcome of a Transport request, the envelope never
has both `data` and `error` populated, and both are absent exactly when a
success-range response's body parsed to `null` (parse failure), in which case
the envelope is `{ data: null, error: null }`. -/
theorem request_envelope_amended (outcome : FetchOutcome) :
    (¬((requestResult outcome).data.isSome = true ∧
       (requestResult outcome).error.isSome = true)) ∧
    (((requestResult outcome).data = none ∧ (requestResult outcome).error = none) ↔
      (∃ status, outcome = .response status none ∧ okStatus status = true)) := by
  cases outcome with
  | response status body =>
    by_cases hok : okStatus status = true
    · cases body <;> simp [requestResult, hok]
    · simp [requestResult, hok]
  | abort => simp [requestResult]
  | failed isError msg => simp [requestResult]

/-- C2 (counterexample): a direct `signUp` call whose remote call succeeds —
here returning a session-shaped payload — does not transition the Session
Holder to Authenticated: starting Anonymous, the holder is still Anonymous
(`none`) afterwards.  `AuthClient.signUp` is OTP step 1 and never assigns
`this.session` (auth.ts lines 40-52). -/
theorem signUp_counterexample :
    (signUp "demo" "a@b.com" "pw" none none
      { data := some (.jobj [("access_token", .jstr "t1"), ("refresh_token", .jstr "r1"),
                             ("expires_in", .jnum 900), ("token_type", .jstr "bearer")])
        error := none }).2.1 = none := rfl

/-- C2 (amended): for `verifySignUp` and `signIn`, a remote call returning a
session payload makes the Session Holder hold exactly that payload, wholesale
replacing any prior state; direct `signUp` (OTP step 1) never mutates the
holder, whatever its outcome. -/
theorem session_transition_amended (slug email password code : String)
    (sess : AuthSession) (e : Option ErrorInfo) (st : AuthState)
    (metadata : Option Json) (resp : ApiResult Json) :
    (verifySignUp slug email code st { data := some sess, error := e }).2.1 = some sess ∧
    (signIn slug email password st { data := some sess, error := e }).2.1 = some sess ∧
    (signUp slug email password metadata st resp).2.1 = st :=
  ⟨rfl, rfl, rfl⟩

/-- C3 (counterexample): the deadline is not always the supplied per-call
override.  With a configured timeout of 5000 and a per-call override of 0, the
code's `options.timeout || this.timeout` (client.ts line 23) uses 5000, while
the claim's deadline is the supplied 0. -/
theorem timeout_deadline_counterexample :
    effectiveTimeout { projectSlug := "demo", apiKey := "k", timeout := some 5000 }
        { timeout := some 0 } = 5000 ∧
    claimedDeadline { projectSlug := "demo", apiKey := "k", timeout := some 5000 }
        { timeout := some 0 } = 0 ∧
    (5000 : Nat) ≠ 0 :=
  ⟨rfl, rfl, by decide⟩

/-- C3 (amended): a Transport call whose deadline fires returns exactly
`error = { message: "Request timeout", code: "TIMEOUT" }` with no status and no
data; and the deadline is the per-call override when supplied and nonzero, else
the configured timeout when supplied and nonzero, else 30000 ms. -/
theorem timeout_behavior_amended (cfg : OrbitNestConfig) (opts : RequestOptions) :
    requestResult .abort =
      { data := none
        error := some { message := .jstr "Request timeout"
                        code := some (.jstr "TIMEOUT"), status := none } } ∧
    effectiveTimeout cfg opts = amendedDeadline cfg opts := by
  refine ⟨rfl, ?_⟩
  have hcfg : clientTimeout cfg = amendedConfigured cfg := by
    unfold clientTimeout amendedConfigured
    cases cfg.timeout with
    | none => rfl
    | some c =>
      by_cases hc : c = 0
      · simp [hc]
      · simp [hc, Nat.pos_of_ne_zero hc]
  unfold effectiveTimeout amendedDeadline
  cases opts.timeout with
  | none => exact hcfg
  | some t =>
    by_cases ht : t = 0
    · simp [ht, hcfg]
    · simp [ht, Nat.pos_of_ne_zero ht]

/-- C4 (counterexample): the error message is not always the parsed body's
`message` field when that field is present.  For a 500 response with body
`{"message": ""}`, the field is present but falsy, so the `||` chain on
client.ts line 45 produces the generic message instead of `""`. -/
theorem error_mapping_counterexample :
    (requestResult (.response 500 (some (.jobj [("message", .jstr "")])))).error =
      some { message := .jstr "Request failed with status 500"
             code := none, status := some 500 } ∧
    claimedErrorFromBody 500 (some (.jobj [("message", .jstr "")])) =
      { message := .jstr "", code := none, status := some 500 } ∧
    Json.jstr "Request failed with status 500" ≠ Json.jstr "" :=
  ⟨rfl, rfl, by simp only [ne_eq, Json.jstr.injEq]; decide⟩

/-- C4 (amended): for every response outside the success range, Transport
returns no data and an error whose message is the parsed body's `message` field
when truthy, else its `error` field when truthy, else the generic
`"Request failed with status <status>"`; whose code is the body's `code` field
when truthy, else its `statusCode` stringified through optional chaining; and
whose status equals the HTTP status. -/
theorem error_mapping_amended (status : Nat) (body : Option Json)
    (h : okStatus status = false) :
    requestResult (.response status body) =
      { data := none, error := some (amendedErrorFromBody status body) } := by
  simp [requestResult, h, errorFromBody_eq_amended]

/-- Witness for the amended C4 theorem at a concrete 404 response. -/
theorem error_mapping_amended_witness :
    okStatus 404 = false ∧
    requestResult (.response 404 (some (.jobj [("message", .jstr "Not found"), ("code", .jstr "NF")]))) =
      { data := none
        error := some (amendedErrorFromBody 404
          (some (.jobj [("message", .jstr "Not found"), ("code", .jstr "NF")]))) } :=
  ⟨rfl, error_mapping_amended 404 (some (.jobj [("message", .jstr "Not found"), ("code", .jstr "NF")])) rfl⟩

/-- C5 (confirmed): each session-requiring operation is guarded by its own
token alone.  Whenever the Session Holder lacks the refresh token (the guard of
auth.ts line 116), `refreshSession` fails immediately with
`{ message: "No refresh token available", code: "NO_SESSION" }` and makes no
network call; and whenever it lacks the access token (the guards of auth.ts
lines 162, 180, 200), `getProfile`, `updateUser` and `deleteUser` each fail
immediately with `{ message: "No active session", code: "NO_SESSION" }` and
make no network call — in every case with the session state untouched. -/
theorem no_session_guards (slug : String) (st : AuthState)
    (r1 : ApiResult AuthSession) (r2 r3 : ApiResult AuthUser)
    (r4 : ApiResult SuccessFlag) (u : Json) :
    (lacksRefreshToken st = true →
      refreshSession slug st r1 =
        ({ data := none
           error := some { message := .jstr "No refresh token available"
                           code := some (.jstr "NO_SESSION"), status := none } }, st, [])) ∧
    (lacksAccessToken st = true →
      getProfile slug st r2 =
        ({ data := none
           error := some { message := .jstr "No active session"
                           code := some (.jstr "NO_SESSION"), status := none } }, st, []) ∧
      updateUser slug u st r3 =
        ({ data := none
           error := some { message := .jstr "No active session"
                           code := some (.jstr "NO_SESSION"), status := none } }, st, []) ∧
      deleteUser slug st r4 =
        ({ data := none
           error := some { message := .jstr "No active session"
                           code := some (.jstr "NO_SESSION"), status := none } }, st, [])) := by
  constructor
  · intro hr
    simp [refreshSession, hr]
  · intro ha
    refine ⟨?_, ?_, ?_⟩ <;>
      simp [getProfile, updateUser, deleteUser, noActiveSessionError, ha]

/-- Witness for the C5 theorem, discharging each guard hypothesis at a mixed
state covered only by that guard: a session holding an access token but no
refresh token for `refreshSession`, and one holding a refresh token but no
access token for the profile operations. -/
theorem no_session_guards_witness :
    lacksRefreshToken (some sessionWithoutRefresh) = true ∧
    lacksAccessToken (some sessionWithoutAccess) = true ∧
    refreshSession "demo" (some sessionWithoutRefresh) { data := none, error := none } =
      ({ data := none
         error := some { message := .jstr "No refresh token available"
                         code := some (.jstr "NO_SESSION"), status := none } },
       some sessionWithoutRefresh, []) ∧
    (getProfile "demo" (some sessionWithoutAccess) { data := none, error := none } =
      ({ data := none
         error := some { message := .jstr "No active session"
                         code := some (.jstr "NO_SESSION"), status := none } },
       some sessionWithoutAccess, []) ∧
     updateUser "demo" (.jobj []) (some sessionWithoutAccess) { data := none, error := none } =
      ({ data := none
         error := some { message := .jstr "No active session"
                         code := some (.jstr "NO_SESSION"), status := none } },
       some sessionWithoutAccess, []) ∧
     deleteUser "demo" (some sessionWithoutAccess) { data := none, error := none } =
      ({ data := none
         error := some { message := .jstr "No active session"
                         code := some (.jstr "NO_SESSION"), status := none } },
       some sessionWithoutAccess, [])) :=
  ⟨rfl, rfl,
   (no_session_guards "demo" (some sessionWithoutRefresh)
      { data := none, error := none } { data := none, error := none }
      { data := none, error := none } { data := none, error := none } (.jobj [])).1 rfl,
   (no_session_guards "demo" (some sessionWithoutAccess)
      { data := none, error := none } { data := none, error := none }
      { data := none, error := none } { data := none, error := none } (.jobj [])).2 rfl⟩

/-- C6 (confirmed): `signOut` while Authenticated issues the remote sign-out
call bearing the current session's access token and clears the session
unconditionally, returning the remote envelope whatever it was; while Anonymous
it succeeds locally with no network call; and in both cases `getUser()` on the
resulting state is empty. -/
theorem signOut_behavior (slug : String) (st : AuthState) (s : AuthSession)
    (resp : ApiResult SuccessFlag) :
    signOut slug (some s) resp =
      (resp, none,
        [{ path := authBasePath slug ++ "/signout", method := "POST", body := none,
           headers := [("Authorization", "Bearer " ++ s.access_token)] }]) ∧
    signOut slug none resp = ({ data := some { success := true }, error := none }, none, []) ∧
    (signOut slug st resp).2.1 = none ∧
    getUser (signOut slug st resp).2.1 = none := by
  refine ⟨rfl, rfl, ?_, ?_⟩ <;> cases st <;> rfl

/-- C7 (confirmed): a sign-in receiving HTTP 409 with body
`{ message: "User already exists" }` yields an envelope carrying exactly that
error with status 409 and no data, and the Session Holder keeps its prior
state (`f` is the runtime-transparent `request<AuthSession>` payload cast). -/
theorem signIn_failure_no_mutation (slug email password : String) (st : AuthState)
    (f : Json → AuthSession) :
    requestResult (.response 409 (some (.jobj [("message", .jstr "User already exists")]))) =
      { data := none
        error := some { message := .jstr "User already exists"
                        code := none, status := some 409 } } ∧
    (signIn slug email password st
      (castResult f (requestResult
        (.response 409 (some (.jobj [("message", .jstr "User already exists")])))))).1 =
      { data := none
        error := some { message := .jstr "User already exists"
                        code := none, status := some 409 } } ∧
    (signIn slug email password st
      (castResult f (requestResult
        (.response 409 (some (.jobj [("message", .jstr "User already exists")])))))).2.1 = st :=
  ⟨rfl, rfl, rfl⟩

/-- C8 (confirmed): `page`, `limit` and `orderBy` each overwrite any previously
set value of their QueryState field, and `select()` after `.limit(10).limit(5)`
issues exactly one read call, whose query carries `limit=5` once and nothing
else. -/
theorem query_builder_overwrite (st : PaginationOptions) (a b : Nat)
    (col col2 ord ord2 slug tbl : String) (resp : ApiResult Json) :
    TableQueryBuilder.limit b (TableQueryBuilder.limit a st) = TableQueryBuilder.limit b st ∧
    TableQueryBuilder.page b (TableQueryBuilder.page a st) = TableQueryBuilder.page b st ∧
    TableQueryBuilder.orderBy col ord (TableQueryBuilder.orderBy col2 ord2 st) =
      TableQueryBuilder.orderBy col ord st ∧
    (select slug tbl (TableQueryBuilder.limit 5 (TableQueryBuilder.limit 10 {})) resp).2 =
      [{ path := dbBasePath slug ++ "/tables/" ++ tbl ++ "/data" ++ "?limit=5",
         method := "GET", body := none, headers := [] }] ∧
    paginationParams (TableQueryBuilder.limit 5 (TableQueryBuilder.limit 10 {})) =
      [("limit", "5")] :=
  ⟨rfl, rfl, rfl, rfl, rfl⟩

/-- C9 (confirmed): `setSession(s)` followed by `getSession()` returns exactly
`s`, from any prior Session Holder state. -/
theorem setSession_getSession_roundtrip (s : AuthSession) (st : AuthState) :
    getSession (setSession s st) = some s := rfl

/-- C10 (confirmed): when the transport call underlying `FunctionsClient.invoke`
succeeds, the envelope wraps the parsed body with the constant status 200 and
an empty headers record — whatever the actual HTTP status in the success range
was — and when it fails, the transport's error envelope is returned unchanged;
one call is issued with the function path and the supplied options. -/
theorem invoke_wrapping (slug fname : String) (opts : FunctionInvokeOptions)
    (status : Nat) (body : Option Json) (outcome : FetchOutcome) (e : ErrorInfo)
    (hok : okStatus status = true)
    (herr : (requestResult outcome).error = some e) :
    (invoke slug fname opts (.response status body)).1 =
      { data := some { data := body, status := 200, headers := [] }, error := none } ∧
    (invoke slug fname opts outcome).1 = { data := none, error := some e } ∧
    (invoke slug fname opts outcome).2 =
      [{ path := "/api/projects/" ++ slug ++ "/functions/v1/" ++ fname
         method :=
           (match opts.method with
            | some m => if m != "" then m else "POST"
            | none => "POST")
         body := opts.body
         headers := opts.headers }] := by
  refine ⟨?_, ?_, ?_⟩
  · simp [invoke, requestResult, hok]
  · simp [invoke, herr]
  · unfold invoke
    cases h : (requestResult outcome).error <;> simp [h]

/-- Witness for the C10 theorem: a 201 success is wrapped with status 200, and
a timed-out call's error envelope passes through unchanged. -/
theorem invoke_wrapping_witness :
    okStatus 201 = true ∧
    (requestResult .abort).error =
      some { message := .jstr "Request timeout", code := some (.jstr "TIMEOUT"), status := none } ∧
    ((invoke "demo" "fn" {} (.response 201 (some (.jstr "ok")))).1 =
      { data := some { data := some (.jstr "ok"), status := 200, headers := [] }, error := none } ∧
     (invoke "demo" "fn" {} .abort).1 =
      { data := none
        error := some { message := .jstr "Request timeout"
                        code := some (.jstr "TIMEOUT"), status := none } } ∧
     (invoke "demo" "fn" {} .abort).2 =
      [{ path := "/api/projects/" ++ "demo" ++ "/functions/v1/" ++ "fn"
         method := "POST", body := none, headers := [] }]) :=
  ⟨rfl, rfl, invoke_wrapping "demo" "fn" {} 201 (some (.jstr "ok")) .abort
    { message := .jstr "Request timeout", code := some (.jstr "TIMEOUT"), status := none } rfl rfl⟩

end OrbitNest
